import Mathlib

/-
Shallow embedding of the orchestration/delegation layer of the
google-a2a-sample repository (src/multi_agent/host_agent.py,
src/multi_agent/card_resolver.py, src/multi_agent/client.py), together
with theorems checking the repository's natural-language specification
against it.

Python dictionaries (the ADK session `state`, message metadata) are
modelled as association lists over string keys; `str(uuid.uuid4())` is
modelled as drawing from a generator `gen : Nat → String` threaded by a
counter; exceptions are modelled with `Except`; the remote peer and the
HTTP stack are oracles passed in as functions.
-/

namespace A2A

/-! ### Association lists: the model of Python `dict` -/

/-- Lookup in an association list; first binding of the key wins
(association lists here never hold duplicate keys, matching `dict`). -/
def lookupA {α : Type} : List (String × α) → String → Option α
  | [], _ => none
  | kv :: rest, k => if kv.1 = k then some kv.2 else lookupA rest k

/-- Update/insert of a key, as Python `d[k] = v`: replaces the existing
binding in place or appends a fresh one. -/
def setA {α : Type} : List (String × α) → String → α → List (String × α)
  | [], k, v => [(k, v)]
  | kv :: rest, k, v => if kv.1 = k then (k, v) :: rest else kv :: setA rest k v

/-- Python `d.update(other)`: apply the other dict's bindings in order. -/
def updA {α : Type} (m : List (String × α)) (d : List (String × α)) : List (String × α) :=
  d.foldl (fun acc kv => setA acc kv.1 kv.2) m

/-! ### Session-state values

The session `state` dict holds strings (`session_id`, `agent`,
`task_id`), booleans (`session_active`) and one string-valued dict
(`input_message_metadata`). -/

/-- A value stored in the ADK session state dict. -/
inductive SVal where
  | str (s : String)
  | bool (b : Bool)
  | dict (d : List (String × String))
  deriving DecidableEq, Repr

/-- Python truthiness of a state value: empty string, `False` and empty
dict are falsy. -/
def SVal.truthy : SVal → Bool
  | .str s => !s.isEmpty
  | .bool b => b
  | .dict d => !d.isEmpty

/-- The ADK session state (`tool_context.state` / `callback_context.state`). -/
abbrev State := List (String × SVal)

/-! ### The content-part model (common_types Part union, as consumed by
`HostAgent.convert_part` through duck-typed `part.type` dispatch) -/

/-- FileContent of an A2A FilePart: `name`, `mimeType` and base64 `bytes`. -/
structure FileContent where
  name : String
  mimeType : String
  bytes : String
  deriving DecidableEq, Repr

/-- A content part, tagged by its `type` field; `other` covers any tag
that is not text/data/file. -/
inductive Part where
  | text (text : String)
  | data (data : List (String × String))
  | file (file : FileContent)
  | other (tag : String)
  deriving DecidableEq, Repr

/-- One `tool_context.save_artifact(file_id, file_part)` call recorded by
the converter: the artifact id, the mime type of the stored blob and the
decoded bytes. -/
structure ArtifactSave where
  fileId : String
  mimeType : String
  bytesData : List Nat
  deriving DecidableEq, Repr

/-- The `tool_context.actions` flags mutated by the converter. -/
structure Actions where
  skip_summarization : Bool
  escalate : Bool
  deriving DecidableEq, Repr

/-- The effectful surface of the ADK ToolContext as used by
`convert_part`: the log of `save_artifact` calls and the `actions`
flags. (`tool_context.state` is carried separately by `send_task`; the
converter never reads or writes it.) -/
structure ToolCtx where
  saves : List ArtifactSave
  actions : Actions
  deriving DecidableEq, Repr

/-- Result of converting one part: a plain string (text part or the
unknown-type sentinel), the raw dict payload of a data part, or the
`DataPart` reference object returned for a file part. -/
inductive PartResult where
  | str (s : String)
  | rawDict (d : List (String × String))
  | dataPart (d : List (String × String))
  deriving DecidableEq, Repr

/-! ### base64 decoding (`base64.b64decode`, `validate=False`)

Characters outside the base64 alphabet and padding are discarded, the
remaining length must be a multiple of four (otherwise
`binascii.Error` — modelled as `none`), and each group of four
six-bit values yields three bytes (two or three leftover values after
stripping padding yield one or two bytes). -/

/-- Value of one base64 alphabet character. -/
def b64CharVal (c : Char) : Option Nat :=
  if 'A' ≤ c ∧ c ≤ 'Z' then some (c.toNat - 65)
  else if 'a' ≤ c ∧ c ≤ 'z' then some (c.toNat - 97 + 26)
  else if '0' ≤ c ∧ c ≤ '9' then some (c.toNat - 48 + 52)
  else if c = '+' then some 62
  else if c = '/' then some 63
  else none

/-- Reassemble six-bit values into bytes; a single trailing value cannot
encode a byte and is a decode error. -/
def b64Groups : List Nat → Option (List Nat)
  | [] => some []
  | [_] => none
  | [a, b] => some [(a * 4 + b / 16) % 256]
  | [a, b, c] => some [(a * 4 + b / 16) % 256, ((b % 16) * 16 + c / 4) % 256]
  | a :: b :: c :: d :: rest =>
    match b64Groups rest with
    | none => none
    | some tail =>
        some (((a * 4 + b / 16) % 256) :: (((b % 16) * 16 + c / 4) % 256)
              :: (((c % 4) * 64 + d) % 256) :: tail)

/-- Decode a base64 string; `none` models a raised `binascii.Error`. -/
def b64decode (s : String) : Option (List Nat) :=
  let cs := s.data.filter (fun c => (b64CharVal c).isSome || c == '=')
  if cs.length % 4 ≠ 0 then none
  else b64Groups ((cs.filter (fun c => c != '=')).map (fun c => (b64CharVal c).getD 0))

/-! ### The part converter (`HostAgent.convert_part` / `convert_parts`) -/

/-- HostAgent.convert_part: text → the literal text; data → the raw
payload; file → decode the bytes, and when a tool context is present
record one `save_artifact` call and set both action flags, returning the
`DataPart` artifact reference; any other tag → the "Unknown type"
sentinel string. An `Except.error` models a raised exception (only the
base64 decode can raise). -/
def convert_part (part : Part) (tc : Option ToolCtx) :
    Except String PartResult × Option ToolCtx :=
  match part with
  | .text t => (.ok (.str t), tc)
  | .data d => (.ok (.rawDict d), tc)
  | .file f =>
    match b64decode f.bytes with
    | none => (.error "binascii.Error: Invalid base64-encoded string", tc)
    | some bs =>
      let tc1 := match tc with
        | some c => some { c with
            saves := c.saves ++ [⟨f.name, f.mimeType, bs⟩],
            actions := ⟨true, true⟩ }
        | none => none
      (.ok (.dataPart [("artifact-file-id", f.name)]), tc1)
  | .other tag => (.ok (.str ("Unknown type: " ++ tag)), tc)

/-- HostAgent.convert_parts: convert each part in order; a raised
exception aborts the loop (the partial results are discarded, the side
effects made so far persist). -/
def convert_parts : List Part → Option ToolCtx →
    Except String (List PartResult) × Option ToolCtx
  | [], tc => (.ok [], tc)
  | p :: rest, tc =>
    match convert_part p tc with
    | (.error e, tc1) => (.error e, tc1)
    | (.ok r, tc1) =>
      match convert_parts rest tc1 with
      | (.error e, tc2) => (.error e, tc2)
      | (.ok rs, tc2) => (.ok (r :: rs), tc2)

/-! ### Task wire model (common_types, as consumed by `send_task`) -/

/-- A2A Message: `role`, ordered `parts`, `metadata`. Metadata values can
be any state value (e.g. the `conversation_id` entry carries whatever the
state holds under `session_id`). -/
structure Message where
  role : String
  parts : List Part
  metadata : List (String × SVal)
  deriving DecidableEq, Repr

/-- TaskStatus: the lifecycle state string and an optional message. -/
structure TaskStatus where
  state : String
  message : Option Message
  deriving DecidableEq, Repr

/-- One artifact attached to a Task: its content parts. -/
structure Artifact where
  parts : List Part
  deriving DecidableEq, Repr

/-- An A2A Task as returned by the remote agent. -/
structure Task where
  id : String
  sessionId : String
  status : Option TaskStatus
  artifacts : Option (List Artifact)
  deriving DecidableEq, Repr

/-- TaskSendParams: the request built by `send_task`. `id` and
`sessionId` are the state values used (strings in every well-formed
run). -/
structure TaskSendParams where
  id : SVal
  sessionId : SVal
  message : Message
  acceptedOutputModes : List String
  metadata : List (String × SVal)
  deriving DecidableEq, Repr

/-- Behaviour of one `client.send_task` round trip: either a returned
task object (possibly `None`) or a raised exception with its rendered
message. -/
inductive RemoteOutcome where
  | ok (task : Option Task)
  | exn (msg : String)
  deriving Repr

/-- Python exceptions that `send_task` itself can raise (those it does
not catch). -/
inductive PyError where
  | valueError (msg : String)
  | keyError (k : String)
  | typeError (msg : String)
  | httpStatusError (code : Nat)
  | a2aHTTPError (code : Nat) (msg : String)
  | a2aConnectionError (msg : String)
  | jsonDecodeError (msg : String)
  deriving DecidableEq, Repr

/-- The value returned by `send_task`: a plain string on every processed
path, but a one-element Python list on the transport-error path
(host_agent.py line 185). -/
inductive SendTaskRet where
  | strRet (s : String)
  | listRet (l : List String)
  deriving DecidableEq, Repr

/-- Everything observable about one `send_task` call: the returned value
or raised exception, the final session state, the final tool-context
effects, the requests actually sent over the network, and the UUID
counter. -/
structure SendResult where
  ret : Except PyError SendTaskRet
  state : State
  tool : ToolCtx
  sent : List TaskSendParams
  ctr : Nat
  deriving Repr

/-! ### Python string renderings used in the f-strings of `send_task` -/

/-- Python `str(d)` for a string-valued dict. -/
def pyStrDict (d : List (String × String)) : String :=
  "\x7b" ++ String.intercalate ", "
    (d.map (fun kv => "'" ++ kv.1 ++ "': '" ++ kv.2 ++ "'")) ++ "\x7d"

/-- Python `str(v)` of a state value. -/
def pySValStr : SVal → String
  | .str s => s
  | .bool b => if b then "True" else "False"
  | .dict d => pyStrDict d

/-- Python `str()` of one converted part result, as used by
`"\n".join(map(str, results_list))`: strings render as themselves, the
raw dict of a data part renders as a Python dict, and the `DataPart`
object returned for file parts renders via its pydantic string form. -/
def pyStrOfResult : PartResult → String
  | .str s => s
  | .rawDict d => pyStrDict d
  | .dataPart d => "type='data' data=" ++ pyStrDict d ++ " metadata=None"

/-- Rendering of `str(task)` for the diagnostic of the final else branch
(models the pydantic string form of the Task object; `None` for a
missing task). -/
def taskRepr : Option Task → String
  | none => "None"
  | some t =>
      "id='" ++ t.id ++ "' sessionId='" ++ t.sessionId ++ "' status="
        ++ (match t.status with
            | none => "None"
            | some st => "TaskStatus(state='" ++ st.state ++ "')")

/-! ### Response processing (`send_task` lines 188-213) -/

/-- Convert the parts of every artifact in order, extending the results
list (the `for artifact in task.artifacts` loop). -/
def convertArtifacts : List Artifact → Option ToolCtx →
    Except String (List PartResult) × Option ToolCtx
  | [], tc => (.ok [], tc)
  | a :: rest, tc =>
    match convert_parts a.parts tc with
    | (.error e, tc1) => (.error e, tc1)
    | (.ok rs, tc1) =>
      match convertArtifacts rest tc1 with
      | (.error e, tc2) => (.error e, tc2)
      | (.ok rs2, tc2) => (.ok (rs ++ rs2), tc2)

/-- Processing of the task object received from the remote agent
(the second try block of `send_task`): extract and convert
`status.message.parts` plus any artifact parts and join them (with the
"no text content" placeholder when the conversion produced nothing);
missing message but present status yields the status diagnostic; a
missing task or missing status yields the invalid-structure diagnostic.
A conversion exception is caught and rendered as the processing-error
string; side effects made before the exception persist. -/
def processResponse (agent_name taskIdStr : String) (t : Option Task)
    (tc : ToolCtx) : SendTaskRet × ToolCtx :=
  match t with
  | some task =>
    match task.status with
    | some status =>
      match status.message with
      | some msg =>
        match convert_parts msg.parts (some tc) with
        | (.error e, tc1) =>
            (.strRet ("Error processing response for task " ++ taskIdStr ++ ": " ++ e),
             tc1.getD tc)
        | (.ok results0, tc1) =>
          match convertArtifacts ((task.artifacts).getD []) tc1 with
          | (.error e, tc2) =>
              (.strRet ("Error processing response for task " ++ taskIdStr ++ ": " ++ e),
               tc2.getD tc)
          | (.ok results1, tc2) =>
            let results := results0 ++ results1
            let final :=
              if results.isEmpty
              then "Task completed but no text content found for " ++ agent_name ++ "."
              else String.intercalate "\n" (results.map pyStrOfResult)
            (.strRet final, tc2.getD tc)
      | none =>
          (.strRet ("Task failed or completed without results from " ++ agent_name
            ++ ". Status: " ++ status.state), tc)
    | none =>
        (.strRet ("Failed to get a valid response structure from " ++ agent_name
          ++ " after sending task (Task object: " ++ taskRepr t ++ ")."), tc)
  | none =>
      (.strRet ("Failed to get a valid response structure from " ++ agent_name
        ++ " after sending task (Task object: None)."), tc)

/-! ### The delegation operation (`HostAgent.send_task`) -/

/-- Outcome handling of the `client.send_task` round trip
(host_agent.py lines 177-213): a raised exception is caught and turned
into the one-element list of a diagnostic string; a returned task object
goes through response processing. -/
def sendTaskDispatch (agent_name taskIdStr : String) (st2 : State) (tc0 : ToolCtx)
    (request : TaskSendParams) (outcome : RemoteOutcome) (ctr2 : Nat) : SendResult :=
  match outcome with
  | .exn e =>
      { ret := .ok (.listRet ["Error communicating with " ++ agent_name ++ ": " ++ e]),
        state := st2, tool := tc0, sent := [request], ctr := ctr2 }
  | .ok t =>
      let pr := processResponse agent_name taskIdStr t tc0
      { ret := .ok pr.1, state := st2, tool := pr.2,
        sent := [request], ctr := ctr2 }

/-- Tail of `send_task` after the session/state bookkeeping (host_agent.py
lines 162-213): finalize `message_id` (drawing a fresh UUID when the
metadata provided none or an empty one), finish the metadata dict, build
the TaskSendParams, perform the remote call and handle its outcome.
`metadata0`/`messageId0` are the values accumulated from
`state['input_message_metadata']`. -/
def sendTaskCore (gen : Nat → String) (remote : TaskSendParams → RemoteOutcome)
    (agent_name message : String) (st2 : State) (tc0 : ToolCtx)
    (taskIdV sessionIdV : SVal) (metadata0 : List (String × SVal))
    (messageId0 : String) (ctr1 : Nat) : SendResult :=
  let midCtr : String × Nat :=
    if messageId0.isEmpty then (gen ctr1, ctr1 + 1) else (messageId0, ctr1)
  let metadata := updA metadata0
    [("conversation_id", sessionIdV), ("message_id", SVal.str midCtr.1)]
  let request : TaskSendParams :=
    { id := taskIdV, sessionId := sessionIdV,
      message := { role := "user", parts := [Part.text message], metadata := metadata },
      acceptedOutputModes := ["text", "text/plain", "image/png"],
      metadata := [("conversation_id", sessionIdV)] }
  sendTaskDispatch agent_name (pySValStr taskIdV) st2 tc0 request (remote request) midCtr.2

/-- HostAgent.send_task. Inputs: the UUID generator and its counter, the
registry of registered agent names (`self.remote_agent_connections`
keys; the stored connection objects are always constructed instances,
hence always truthy, so the dead `if not client` guard has no error
branch), the remote-call oracle, the tool arguments, and the session
state plus tool-context effects. Mirrors the source line by line:
validate the agent name; write `state['agent']`; reuse `state['task_id']`
or draw a fresh UUID; read `state['session_id']` (KeyError when absent);
write `state['task_id']`; build the metadata and the TaskSendParams;
call the remote agent, converting any raised exception into the
one-element list of a diagnostic string; otherwise process the
response. -/
def send_task (gen : Nat → String) (registry : List String)
    (remote : TaskSendParams → RemoteOutcome)
    (agent_name message : String)
    (st0 : State) (tc0 : ToolCtx) (ctr0 : Nat) : SendResult :=
  if registry.contains agent_name then
    let st1 := setA st0 "agent" (SVal.str agent_name)
    let idCtr : SVal × Nat :=
      match lookupA st1 "task_id" with
      | some v => (v, ctr0)
      | none => (SVal.str (gen ctr0), ctr0 + 1)
    match lookupA st1 "session_id" with
    | none =>
        { ret := .error (.keyError "session_id"), state := st1, tool := tc0,
          sent := [], ctr := idCtr.2 }
    | some sessionIdV =>
      let st2 := setA st1 "task_id" idCtr.1
      match lookupA st2 "input_message_metadata" with
      | some (SVal.str _) | some (SVal.bool _) =>
          -- `metadata.update(**state['input_message_metadata'])` with a
          -- non-mapping raises TypeError
          { ret := .error (.typeError "argument after ** must be a mapping"),
            state := st2, tool := tc0, sent := [], ctr := idCtr.2 }
      | some (SVal.dict imm) =>
          sendTaskCore gen remote agent_name message st2 tc0 idCtr.1 sessionIdV
            (updA [] (imm.map (fun kv => (kv.1, SVal.str kv.2))))
            ((lookupA imm "message_id").getD "") idCtr.2
      | none =>
          sendTaskCore gen remote agent_name message st2 tc0 idCtr.1 sessionIdV
            [] "" idCtr.2
  else
    { ret := .error (.valueError ("Agent " ++ agent_name ++ " not found")),
      state := st0, tool := tc0, sent := [], ctr := ctr0 }

/-! ### Session bootstrap (`HostAgent.before_model_callback`) -/

/-- The guard of the bootstrap:
`'session_active' not in state or not state['session_active']`. -/
def sessionInactive (st : State) : Bool :=
  match lookupA st "session_active" with
  | none => true
  | some v => !v.truthy

/-- HostAgent.before_model_callback: when the session is not yet active,
lazily assign a fresh `session_id` if none exists, then mark the session
active. Returns the updated state and UUID counter. -/
def before_model_callback (gen : Nat → String) (st : State) (ctr : Nat) :
    State × Nat :=
  if sessionInactive st then
    if (lookupA st "session_id").isNone then
      (setA (setA st "session_id" (SVal.str (gen ctr))) "session_active" (SVal.bool true),
       ctr + 1)
    else (setA st "session_active" (SVal.bool true), ctr)
  else (st, ctr)

/-! ### Discovery and orchestrator construction
(`A2ACardResolver.get_agent_card`, `HostAgent.__init__`,
`HostAgent.list_remote_agents`) -/

/-- An agent's capability descriptor (the fields the orchestrator
consumes). -/
structure AgentCard where
  name : String
  description : String
  url : String
  deriving DecidableEq, Repr

/-- Behaviour of the discovery GET for one address: a 2xx with a valid
card body, a non-2xx status, a connection-level failure, a JSON parse
failure, or a schema-invalid body (pydantic validation failure). -/
inductive FetchOutcome where
  | success (card : AgentCard)
  | httpStatus (code : Nat)
  | requestError (msg : String)
  | decodeError (msg : String)
  | invalidSchema (msg : String)
  deriving Repr

/-- Python `base_url.rstrip('/')`: drop every trailing slash. -/
def rstripSlash (s : String) : String :=
  ⟨(s.data.reverse.dropWhile (· = '/')).reverse⟩

/-- A2ACardResolver.get_agent_card: GET `<base>/agent-card`; a non-2xx
status raises the HTTPStatusError unchanged (`raise e`); a connection or
JSON-decode failure is re-raised as a ValueError naming the URL; a
schema-invalid body raises the pydantic validation error, which no
except clause catches. -/
def get_agent_card (fetch : String → FetchOutcome) (base_url : String) :
    Except PyError AgentCard :=
  let url := rstripSlash base_url ++ "/agent-card"
  match fetch url with
  | .success card => .ok card
  | .httpStatus code => .error (.httpStatusError code)
  | .requestError _ =>
      .error (.valueError ("Could not fetch or parse agent card from " ++ url))
  | .decodeError _ =>
      .error (.valueError ("Could not fetch or parse agent card from " ++ url))
  | .invalidSchema msg => .error (.valueError ("validation error: " ++ msg))

/-- The orchestrator's registry after construction: connection keys and
cards, both keyed by `card.name` (later cards with the same name
overwrite earlier ones, as dict assignment does). -/
structure HostAgentData where
  remote_agent_connections : List String
  cards : List (String × AgentCard)
  agents : String
  deriving Repr

/-- json.dumps of one `{"name": ..., "description": ...}` entry of the
agents listing. -/
def jsonDumpsCard (name description : String) : String :=
  "\x7b\"name\": \"" ++ name ++ "\", \"description\": \"" ++ description ++ "\"\x7d"

/-- The registration loop of `HostAgent.__init__`: resolve each address
in order; the first failure propagates out of the constructor. -/
def registerLoop (fetch : String → FetchOutcome) :
    List String → List (String × AgentCard) →
    Except PyError (List (String × AgentCard))
  | [], acc => .ok acc
  | address :: rest, acc =>
    match get_agent_card fetch address with
    | .error e => .error e
    | .ok card => registerLoop fetch rest (setA acc card.name card)

/-- HostAgent.__init__: register every address (any discovery failure
aborts construction by raising), then precompute the
newline-joined JSON agents listing. -/
def hostAgentInit (fetch : String → FetchOutcome) (addresses : List String) :
    Except PyError HostAgentData :=
  match registerLoop fetch addresses [] with
  | .error e => .error e
  | .ok cards =>
      .ok { remote_agent_connections := cards.map (·.1),
            cards := cards,
            agents := String.intercalate "\n"
              (cards.map (fun kv => jsonDumpsCard kv.2.name kv.2.description)) }

/-- HostAgent.list_remote_agents: empty when no connections are
registered, otherwise the (name, description) projection of the cards. -/
def list_remote_agents (h : HostAgentData) : List (String × String) :=
  if h.remote_agent_connections.isEmpty then []
  else h.cards.map (fun kv => (kv.2.name, kv.2.description))

/-! ### Transport response handling (`A2AClient._send_request`) -/

/-- Outcome of the underlying HTTP exchange: a response with status code
and raw body, or a request-level (connection) error. -/
inductive HttpOutcome where
  | response (statusCode : Nat) (body : String)
  | requestError (msg : String)
  deriving Repr

/-- The response-handling path of `A2AClient._send_request`
(client.py lines 78-105), parameterized by the JSON parser: a
connection failure becomes `A2AClientConnectionError`; a non-2xx status
(`raise_for_status`) becomes `A2AClientHTTPError`; a 204 or an empty
body is an empty successful dict; otherwise the parsed JSON body, a
parse failure propagating as the JSON decode error. -/
def handle_response (parse : String → Option (List (String × SVal))) :
    HttpOutcome → Except PyError (List (String × SVal))
  | .requestError msg => .error (.a2aConnectionError msg)
  | .response statusCode body =>
    if statusCode < 200 ∨ 300 ≤ statusCode then
      .error (.a2aHTTPError statusCode ("HTTP status " ++ toString statusCode))
    else if statusCode = 204 then .ok []
    else if body.isEmpty then .ok []
    else
      match parse body with
      | some d => .ok d
      | none => .error (.jsonDecodeError body)

/-! ### Association-list lemmas -/

theorem lookupA_setA_self {α : Type} (l : List (String × α)) (k : String) (v : α) :
    lookupA (setA l k v) k = some v := by
  induction l with
  | nil => simp [setA, lookupA]
  | cons kv rest ih =>
    by_cases h : kv.1 = k
    · simp [setA, h, lookupA]
    · simp [setA, h, lookupA, ih]

theorem lookupA_setA_ne {α : Type} (l : List (String × α)) (k k' : String) (v : α)
    (h : k' ≠ k) : lookupA (setA l k v) k' = lookupA l k' := by
  have hks : ¬k = k' := fun hk => h hk.symm
  induction l with
  | nil => simp [setA, lookupA, hks]
  | cons kv rest ih =>
    by_cases hk : kv.1 = k
    · subst hk
      simp [setA, lookupA, hks]
    · simp [setA, hk, lookupA, ih]

theorem sendTaskDispatch_state (agent_name taskIdStr : String) (st2 : State)
    (tc0 : ToolCtx) (request : TaskSendParams) (outcome : RemoteOutcome) (ctr2 : Nat) :
    (sendTaskDispatch agent_name taskIdStr st2 tc0 request outcome ctr2).state = st2 := by
  cases outcome <;> rfl

theorem sendTaskDispatch_sent (agent_name taskIdStr : String) (st2 : State)
    (tc0 : ToolCtx) (request : TaskSendParams) (outcome : RemoteOutcome) (ctr2 : Nat) :
    (sendTaskDispatch agent_name taskIdStr st2 tc0 request outcome ctr2).sent = [request] := by
  cases outcome <;> rfl

/-- The state produced by the tail of `send_task` is always the state it
was handed: no further session-state writes happen after
`state['task_id']`. -/
theorem sendTaskCore_state (gen : Nat → String) (remote : TaskSendParams → RemoteOutcome)
    (agent_name message : String) (st2 : State) (tc0 : ToolCtx)
    (taskIdV sessionIdV : SVal) (metadata0 : List (String × SVal))
    (messageId0 : String) (ctr1 : Nat) :
    (sendTaskCore gen remote agent_name message st2 tc0 taskIdV sessionIdV
      metadata0 messageId0 ctr1).state = st2 := by
  unfold sendTaskCore
  simp [sendTaskDispatch_state]

/-- Every request the tail of `send_task` sends carries the task id it
was handed. -/
theorem sendTaskCore_sent_id (gen : Nat → String) (remote : TaskSendParams → RemoteOutcome)
    (agent_name message : String) (st2 : State) (tc0 : ToolCtx)
    (taskIdV sessionIdV : SVal) (metadata0 : List (String × SVal))
    (messageId0 : String) (ctr1 : Nat) :
    ∀ req ∈ (sendTaskCore gen remote agent_name message st2 tc0 taskIdV sessionIdV
      metadata0 messageId0 ctr1).sent, req.id = taskIdV := by
  unfold sendTaskCore
  simp [sendTaskDispatch_sent]

/-! ### Claim theorems -/

/-- C2: the part converter maps a text part to its literal text, a data
part to its structured payload unmodified, a file part (with decodable
bytes, given a tool context) to the single `artifact-file-id` reference
value keyed by the file's name while recording exactly one artifact-store
Save call for that name, and any part with an unrecognized tag to the
"Unknown type" string naming that tag — without raising on the unknown
tag. -/
theorem C2_convert_part_variants :
    (∀ t tc, convert_part (Part.text t) tc = (.ok (.str t), tc))
    ∧ (∀ d tc, convert_part (Part.data d) tc = (.ok (.rawDict d), tc))
    ∧ (∀ f tc bs, b64decode f.bytes = some bs →
        convert_part (Part.file f) (some tc)
          = (.ok (.dataPart [("artifact-file-id", f.name)]),
             some ⟨tc.saves ++ [⟨f.name, f.mimeType, bs⟩], true, true⟩))
    ∧ (∀ tag tc, convert_part (Part.other tag) tc
        = (.ok (.str ("Unknown type: " ++ tag)), tc)) := by
  refine ⟨fun t tc => rfl, fun d tc => rfl, fun f tc bs h => ?_, fun tag tc => rfl⟩
  simp [convert_part, h]

/-- Witness for C2 at concrete parts: a text part "hi", the file part
f.png with base64 "aGk=" (exactly one recorded Save, keyed "f.png"), and
the unknown tag "bogus". -/
theorem C2_convert_part_variants_witness :
    convert_part (Part.file ⟨"f.png", "image/png", "aGk="⟩) (some ⟨[], false, false⟩)
      = (.ok (.dataPart [("artifact-file-id", "f.png")]),
         some ⟨[⟨"f.png", "image/png", [104, 105]⟩], true, true⟩)
    ∧ convert_part (Part.text "hi") (some ⟨[], false, false⟩)
      = (.ok (.str "hi"), some ⟨[], false, false⟩)
    ∧ convert_part (Part.other "bogus") (some ⟨[], false, false⟩)
      = (.ok (.str "Unknown type: bogus"), some ⟨[], false, false⟩) :=
  ⟨C2_convert_part_variants.2.2.1 ⟨"f.png", "image/png", "aGk="⟩ ⟨[], false, false⟩
      [104, 105] rfl,
   C2_convert_part_variants.1 "hi" (some ⟨[], false, false⟩),
   C2_convert_part_variants.2.2.2 "bogus" (some ⟨[], false, false⟩)⟩

/-- C6: delegating to an agent name absent from the registry raises the
distinct unknown-agent ValueError, makes no network call, and leaves the
session state and tool context untouched. -/
theorem C6_unknown_agent (gen : Nat → String) (registry : List String)
    (remote : TaskSendParams → RemoteOutcome) (name msg : String)
    (st : State) (tc : ToolCtx) (ctr : Nat)
    (h : name ∉ registry) :
    send_task gen registry remote name msg st tc ctr
      = { ret := .error (.valueError ("Agent " ++ name ++ " not found")),
          state := st, tool := tc, sent := [], ctr := ctr } := by
  simp [send_task, h]

/-- Witness for C6: delegating to the unregistered name "Ghost". -/
theorem C6_unknown_agent_witness :
    send_task (fun n => toString n) ["Alpha"] (fun _ => .ok none) "Ghost" "hi"
      [] ⟨[], false, false⟩ 0
      = { ret := .error (.valueError "Agent Ghost not found"),
          state := [], tool := ⟨[], false, false⟩, sent := [], ctr := 0 } :=
  C6_unknown_agent (fun n => toString n) ["Alpha"] (fun _ => .ok none) "Ghost" "hi"
    [] ⟨[], false, false⟩ 0 (by decide)

/-- C9: with a registered agent but no 'session_id' key in the session
state, send_task raises KeyError before building a request or making any
network call; its only state write so far is 'agent'. -/
theorem C9_missing_session_id (gen : Nat → String) (registry : List String)
    (remote : TaskSendParams → RemoteOutcome) (name msg : String)
    (st : State) (tc : ToolCtx) (ctr : Nat)
    (hreg : name ∈ registry)
    (hs : lookupA st "session_id" = none) :
    (send_task gen registry remote name msg st tc ctr).ret
        = .error (.keyError "session_id")
    ∧ (send_task gen registry remote name msg st tc ctr).sent = []
    ∧ (send_task gen registry remote name msg st tc ctr).tool = tc := by
  have h1 : lookupA (setA st "agent" (SVal.str name)) "session_id" = none :=
    (lookupA_setA_ne st "agent" "session_id" (SVal.str name) (by decide)).trans hs
  refine ⟨?_, ?_, ?_⟩ <;> simp [send_task, hreg, h1]

/-- Witness for C9: registered agent "A", empty session state. -/
theorem C9_missing_session_id_witness :
    (send_task (fun n => toString n) ["A"] (fun _ => .ok none) "A" "m"
        [] ⟨[], false, false⟩ 0).ret = .error (.keyError "session_id")
    ∧ (send_task (fun n => toString n) ["A"] (fun _ => .ok none) "A" "m"
        [] ⟨[], false, false⟩ 0).sent = []
    ∧ (send_task (fun n => toString n) ["A"] (fun _ => .ok none) "A" "m"
        [] ⟨[], false, false⟩ 0).tool = ⟨[], false, false⟩ :=
  C9_missing_session_id (fun n => toString n) ["A"] (fun _ => .ok none) "A" "m"
    [] ⟨[], false, false⟩ 0 (by decide) rfl

/-- C8: any 2xx response whose body is empty — and any 204 response —
is treated by the transport layer as the empty successful dict, not as
an error. -/
theorem C8_empty_body_success (parse : String → Option (List (String × SVal)))
    (statusCode : Nat) (body : String)
    (hlo : 200 ≤ statusCode) (hhi : statusCode < 300)
    (hempty : statusCode = 204 ∨ body = "") :
    handle_response parse (.response statusCode body) = .ok [] := by
  have hcond : ¬(statusCode < 200 ∨ 300 ≤ statusCode) := by omega
  rcases hempty with h | h
  · simp [handle_response, hcond, h]
  · subst h
    by_cases h204 : statusCode = 204 <;>
      simp [handle_response, hcond, h204, show "".isEmpty = true from rfl]

/-- Witness for C8 at a 204 with nonempty body and a 200 with empty
body. -/
theorem C8_empty_body_success_witness :
    handle_response (fun _ => none) (.response 204 "ignored") = .ok []
    ∧ handle_response (fun _ => none) (.response 200 "") = .ok [] :=
  ⟨C8_empty_body_success (fun _ => none) 204 "ignored" (by omega) (by omega) (Or.inl rfl),
   C8_empty_body_success (fun _ => none) 200 "" (by omega) (by omega) (Or.inr rfl)⟩

/-- Bootstrapping always ends with an active session marker, so a second
run of the bootstrap finds the session active. -/
theorem sessionInactive_after (l : State) :
    sessionInactive (setA l "session_active" (SVal.bool true)) = false := by
  unfold sessionInactive
  simp [lookupA_setA_self, SVal.truthy]

/-- C10: on every execution path of send_task — unknown agent, missing
session id, malformed metadata, transport failure or processed
response — the only session-state keys written are 'agent' and
'task_id'; every other key reads the same after the call as before. -/
theorem C10_state_frame (gen : Nat → String) (registry : List String)
    (remote : TaskSendParams → RemoteOutcome) (name msg : String)
    (st : State) (tc : ToolCtx) (ctr : Nat) (k : String)
    (h1 : k ≠ "agent") (h2 : k ≠ "task_id") :
    lookupA (send_task gen registry remote name msg st tc ctr).state k
      = lookupA st k := by
  have e1 : ∀ v, lookupA (setA st "agent" v) k = lookupA st k :=
    fun v => lookupA_setA_ne st "agent" k v h1
  have e2 : ∀ (l : State) v, lookupA (setA l "task_id" v) k = lookupA l k :=
    fun l v => lookupA_setA_ne l "task_id" k v h2
  unfold send_task
  split
  · dsimp only
    split
    · simp [e1]
    · split <;> simp [sendTaskCore_state, e1, e2]
  · rfl

/-- Witness for C10: a delegation run leaves the 'session_id' key
exactly as it was. -/
theorem C10_state_frame_witness :
    lookupA (send_task (fun n => toString n) ["A"] (fun _ => .ok none) "A" "m"
        [("session_id", SVal.str "s")] ⟨[], false, false⟩ 0).state "session_id"
      = lookupA [("session_id", SVal.str "s")] "session_id" :=
  C10_state_frame (fun n => toString n) ["A"] (fun _ => .ok none) "A" "m"
    [("session_id", SVal.str "s")] ⟨[], false, false⟩ 0 "session_id"
    (by decide) (by decide)

/-- C7: the session bootstrap assigns session_id only when it is absent
and never reassigns it; the bootstrap is idempotent (a second run
changes nothing); and two freshly created sessions bootstrapped from the
same UUID supply receive different session_ids whenever the supply does
not repeat. -/
theorem C7_session_bootstrap :
    (∀ gen st ctr v, lookupA st "session_id" = some v →
       lookupA (before_model_callback gen st ctr).1 "session_id" = some v)
    ∧ (∀ gen st ctr,
        before_model_callback gen (before_model_callback gen st ctr).1
            (before_model_callback gen st ctr).2
          = before_model_callback gen st ctr)
    ∧ (∀ gen ctr, gen ctr ≠ gen (ctr + 1) →
        lookupA (before_model_callback gen [] ctr).1 "session_id"
          ≠ lookupA (before_model_callback gen []
              (before_model_callback gen [] ctr).2).1 "session_id") := by
  refine ⟨?_, ?_, ?_⟩
  · intro gen st ctr v h
    unfold before_model_callback
    by_cases hin : sessionInactive st
    · simp [hin, h,
        lookupA_setA_ne st "session_active" "session_id" (SVal.bool true) (by decide)]
    · simp [hin, h]
  · intro gen st ctr
    by_cases hin : sessionInactive st
    · by_cases hid : (lookupA st "session_id").isNone
      · have hfst : before_model_callback gen st ctr
            = (setA (setA st "session_id" (SVal.str (gen ctr))) "session_active"
                (SVal.bool true), ctr + 1) := by
          simp [before_model_callback, hin, hid]
        rw [hfst]
        simp [before_model_callback, sessionInactive_after]
      · have hfst : before_model_callback gen st ctr
            = (setA st "session_active" (SVal.bool true), ctr) := by
          simp [before_model_callback, hin, hid]
        rw [hfst]
        simp [before_model_callback, sessionInactive_after]
    · have hfst : before_model_callback gen st ctr = (st, ctr) := by
        simp [before_model_callback, hin]
      rw [hfst]
      simp [before_model_callback, hin]
  · intro gen ctr h
    simp [before_model_callback, sessionInactive, lookupA, setA, SVal.truthy]
    exact h

/-- Witness for C7: a state already holding a session_id keeps it, and
two fresh sessions bootstrapped from the decimal generator receive the
distinct ids "0" and "1". -/
theorem C7_session_bootstrap_witness :
    lookupA (before_model_callback (fun n => toString n)
        [("session_id", SVal.str "sid-1")] 5).1 "session_id"
      = some (SVal.str "sid-1")
    ∧ lookupA (before_model_callback (fun n => toString n) [] 0).1 "session_id"
      ≠ lookupA (before_model_callback (fun n => toString n) []
          (before_model_callback (fun n => toString n) [] 0).2).1 "session_id" :=
  ⟨C7_session_bootstrap.1 (fun n => toString n) [("session_id", SVal.str "sid-1")] 5
      (SVal.str "sid-1") rfl,
   C7_session_bootstrap.2.2 (fun n => toString n) 0 (by decide)⟩

/-- C3 counterexample: with a session that delegated to "Alpha" first
(acquiring task_id "uuid-0"), a second delegation to the different agent
"Beta" does not generate a new task_id — it reuses "uuid-0", both in the
stored state and in the request actually sent. -/
theorem C3_new_agent_reuses_taskid :
    lookupA (send_task (fun n => "uuid-" ++ toString n) ["Alpha", "Beta"]
        (fun _ => .ok none) "Alpha" "m1"
        [("session_id", SVal.str "s")] ⟨[], false, false⟩ 0).state "agent"
      = some (SVal.str "Alpha")
    ∧ lookupA (send_task (fun n => "uuid-" ++ toString n) ["Alpha", "Beta"]
        (fun _ => .ok none) "Alpha" "m1"
        [("session_id", SVal.str "s")] ⟨[], false, false⟩ 0).state "task_id"
      = some (SVal.str "uuid-0")
    ∧ lookupA (send_task (fun n => "uuid-" ++ toString n) ["Alpha", "Beta"]
        (fun _ => .ok none) "Beta" "m2"
        (send_task (fun n => "uuid-" ++ toString n) ["Alpha", "Beta"]
          (fun _ => .ok none) "Alpha" "m1"
          [("session_id", SVal.str "s")] ⟨[], false, false⟩ 0).state
        ⟨[], false, false⟩
        (send_task (fun n => "uuid-" ++ toString n) ["Alpha", "Beta"]
          (fun _ => .ok none) "Alpha" "m1"
          [("session_id", SVal.str "s")] ⟨[], false, false⟩ 0).ctr).state "agent"
      = some (SVal.str "Beta")
    ∧ lookupA (send_task (fun n => "uuid-" ++ toString n) ["Alpha", "Beta"]
        (fun _ => .ok none) "Beta" "m2"
        (send_task (fun n => "uuid-" ++ toString n) ["Alpha", "Beta"]
          (fun _ => .ok none) "Alpha" "m1"
          [("session_id", SVal.str "s")] ⟨[], false, false⟩ 0).state
        ⟨[], false, false⟩
        (send_task (fun n => "uuid-" ++ toString n) ["Alpha", "Beta"]
          (fun _ => .ok none) "Alpha" "m1"
          [("session_id", SVal.str "s")] ⟨[], false, false⟩ 0).ctr).state "task_id"
      = some (SVal.str "uuid-0")
    ∧ ((send_task (fun n => "uuid-" ++ toString n) ["Alpha", "Beta"]
        (fun _ => .ok none) "Beta" "m2"
        (send_task (fun n => "uuid-" ++ toString n) ["Alpha", "Beta"]
          (fun _ => .ok none) "Alpha" "m1"
          [("session_id", SVal.str "s")] ⟨[], false, false⟩ 0).state
        ⟨[], false, false⟩
        (send_task (fun n => "uuid-" ++ toString n) ["Alpha", "Beta"]
          (fun _ => .ok none) "Alpha" "m1"
          [("session_id", SVal.str "s")] ⟨[], false, false⟩ 0).ctr).sent.map
        TaskSendParams.id)
      = [SVal.str "uuid-0"] :=
  ⟨rfl, rfl, rfl, rfl, rfl⟩

/-- C3 (amended): task_id reuse does not depend on the target agent:
once the session state holds a task_id, every delegation — to the same
or to a different agent — keeps it and stamps it on any request sent; a
fresh task_id is drawn from the generator only when the state holds
none. -/
theorem C3_taskid_reuse :
    (∀ gen registry remote name msg st tc ctr v,
      lookupA st "task_id" = some v →
      lookupA (send_task gen registry remote name msg st tc ctr).state "task_id"
        = some v
      ∧ ∀ req ∈ (send_task gen registry remote name msg st tc ctr).sent,
          req.id = v)
    ∧ (∀ gen registry remote name msg st tc ctr sv,
      name ∈ registry →
      lookupA st "task_id" = none →
      lookupA st "session_id" = some sv →
      lookupA (send_task gen registry remote name msg st tc ctr).state "task_id"
        = some (SVal.str (gen ctr))) := by
  constructor
  · intro gen registry remote name msg st tc ctr v h
    have hst1 : lookupA (setA st "agent" (SVal.str name)) "task_id" = some v :=
      (lookupA_setA_ne st "agent" "task_id" (SVal.str name) (by decide)).trans h
    unfold send_task
    split
    · dsimp only
      simp only [hst1]
      split
      · exact ⟨hst1, by simp⟩
      · split
        · exact ⟨lookupA_setA_self _ _ _, by simp⟩
        · exact ⟨lookupA_setA_self _ _ _, by simp⟩
        · refine ⟨?_, ?_⟩
          · rw [sendTaskCore_state]
            exact lookupA_setA_self _ _ _
          · exact sendTaskCore_sent_id _ _ _ _ _ _ _ _ _ _ _
        · refine ⟨?_, ?_⟩
          · rw [sendTaskCore_state]
            exact lookupA_setA_self _ _ _
          · exact sendTaskCore_sent_id _ _ _ _ _ _ _ _ _ _ _
    · exact ⟨h, by simp⟩
  · intro gen registry remote name msg st tc ctr sv hmem h hsess
    have hst1 : lookupA (setA st "agent" (SVal.str name)) "task_id" = none :=
      (lookupA_setA_ne st "agent" "task_id" (SVal.str name) (by decide)).trans h
    have hs1 : lookupA (setA st "agent" (SVal.str name)) "session_id" = some sv :=
      (lookupA_setA_ne st "agent" "session_id" (SVal.str name) (by decide)).trans hsess
    unfold send_task
    split
    · dsimp only
      simp only [hst1, hs1]
      split <;> simp [sendTaskCore_state, lookupA_setA_self]
    · rename_i hc
      exact absurd hmem (by simpa using hc)

/-- Witness for C3 (amended): a session already holding task_id "t-7"
keeps it through a delegation, and every sent request carries it; a
session without one receives the generated "0". -/
theorem C3_taskid_reuse_witness :
    (lookupA (send_task (fun n => toString n) ["A"] (fun _ => .ok none) "A" "m"
        [("session_id", SVal.str "s"), ("task_id", SVal.str "t-7")]
        ⟨[], false, false⟩ 0).state "task_id" = some (SVal.str "t-7")
    ∧ ∀ req ∈ (send_task (fun n => toString n) ["A"] (fun _ => .ok none) "A" "m"
        [("session_id", SVal.str "s"), ("task_id", SVal.str "t-7")]
        ⟨[], false, false⟩ 0).sent, req.id = SVal.str "t-7")
    ∧ lookupA (send_task (fun n => toString n) ["A"] (fun _ => .ok none) "A" "m"
        [("session_id", SVal.str "s")] ⟨[], false, false⟩ 0).state "task_id"
      = some (SVal.str "0") :=
  ⟨C3_taskid_reuse.1 (fun n => toString n) ["A"] (fun _ => .ok none) "A" "m"
      [("session_id", SVal.str "s"), ("task_id", SVal.str "t-7")]
      ⟨[], false, false⟩ 0 (SVal.str "t-7") rfl,
   C3_taskid_reuse.2 (fun n => toString n) ["A"] (fun _ => .ok none) "A" "m"
      [("session_id", SVal.str "s")] ⟨[], false, false⟩ 0 (SVal.str "s")
      (by decide) rfl rfl⟩

/-- The return value of the `send_task` tail when the remote oracle
yields a task object: it is the processed response. -/
theorem sendTaskCore_ret_ok (gen : Nat → String)
    (remote : TaskSendParams → RemoteOutcome) (agent_name message : String)
    (st2 : State) (tc0 : ToolCtx) (taskIdV sessionIdV : SVal)
    (metadata0 : List (String × SVal)) (messageId0 : String) (ctr1 : Nat)
    (t : Option Task) (hrem : ∀ req, remote req = RemoteOutcome.ok t) :
    (sendTaskCore gen remote agent_name message st2 tc0 taskIdV sessionIdV
      metadata0 messageId0 ctr1).ret
      = .ok (processResponse agent_name (pySValStr taskIdV) t tc0).1 := by
  unfold sendTaskCore sendTaskDispatch
  simp [hrem]

/-- C4 counterexample: for a remote Task with `status.state = "completed"`
but no `status.message` and no artifacts, send_task returns the
status diagnostic string — not the "no content" sentinel that the code
uses for an empty conversion result. -/
theorem C4_completed_without_message :
    (send_task (fun n => toString n) ["AgentX"]
        (fun _ => .ok (some ⟨"t1", "s", some ⟨"completed", none⟩, none⟩))
        "AgentX" "q" [("session_id", SVal.str "s")] ⟨[], false, false⟩ 0).ret
      = .ok (.strRet
          "Task failed or completed without results from AgentX. Status: completed")
    ∧ "Task failed or completed without results from AgentX. Status: completed"
      ≠ "Task completed but no text content found for AgentX."
    ∧ "Task failed or completed without results from AgentX. Status: completed"
      ≠ "" :=
  ⟨rfl, by decide, by decide⟩

/-- C4 (amended): for every Task whose status has no message — in
particular a completed Task with no message and no artifacts — the
delegation returns the deterministic diagnostic
"Task failed or completed without results from <agent>. Status: <state>",
a fixed non-empty string, not the empty string (and not the "no content"
sentinel of the empty-conversion path). -/
theorem C4_status_without_message_diagnostic (gen : Nat → String)
    (registry : List String) (remote : TaskSendParams → RemoteOutcome)
    (name msg : String) (st : State) (tc : ToolCtx) (ctr : Nat) (sv : SVal)
    (s : String) (task : Task)
    (hreg : name ∈ registry)
    (hs : lookupA st "session_id" = some sv)
    (himm : lookupA st "input_message_metadata" = none)
    (hrem : ∀ req, remote req = RemoteOutcome.ok (some task))
    (hstatus : task.status = some { state := s, message := none }) :
    (send_task gen registry remote name msg st tc ctr).ret
      = .ok (.strRet ("Task failed or completed without results from " ++ name
          ++ ". Status: " ++ s))
    ∧ ("Task failed or completed without results from " ++ name
          ++ ". Status: " ++ s) ≠ "" := by
  constructor
  · have h1 : lookupA (setA st "agent" (SVal.str name)) "session_id" = some sv :=
      (lookupA_setA_ne st "agent" "session_id" (SVal.str name) (by decide)).trans hs
    have h2 : ∀ v, lookupA (setA (setA st "agent" (SVal.str name)) "task_id" v)
        "input_message_metadata" = none := fun v =>
      (lookupA_setA_ne _ "task_id" "input_message_metadata" v (by decide)).trans
        ((lookupA_setA_ne st "agent" "input_message_metadata" (SVal.str name)
          (by decide)).trans himm)
    unfold send_task
    split
    · dsimp only
      simp only [h1, h2]
      rw [sendTaskCore_ret_ok _ _ _ _ _ _ _ _ _ _ _ _ hrem]
      simp [processResponse, hstatus]
    · rename_i hc
      exact absurd hreg (by simpa using hc)
  · intro h
    have hd := congrArg String.data h
    simp at hd

/-- Witness for C4 (amended) at a concrete completed task without
message or artifacts. -/
theorem C4_status_without_message_diagnostic_witness :
    (send_task (fun n => toString n) ["AgentY"]
        (fun _ => .ok (some ⟨"t2", "s2", some ⟨"completed", none⟩, none⟩))
        "AgentY" "q2" [("session_id", SVal.str "s2")] ⟨[], false, false⟩ 0).ret
      = .ok (.strRet ("Task failed or completed without results from " ++ "AgentY"
          ++ ". Status: " ++ "completed"))
    ∧ ("Task failed or completed without results from " ++ "AgentY"
          ++ ". Status: " ++ "completed") ≠ "" :=
  C4_status_without_message_diagnostic (fun n => toString n) ["AgentY"]
    (fun _ => .ok (some ⟨"t2", "s2", some ⟨"completed", none⟩, none⟩))
    "AgentY" "q2" [("session_id", SVal.str "s2")] ⟨[], false, false⟩ 0
    (SVal.str "s2") "completed" ⟨"t2", "s2", some ⟨"completed", none⟩, none⟩
    (by decide) rfl rfl (fun req => rfl) rfl

/-- A successful card resolution means the discovery endpoint returned a
valid card. -/
theorem get_agent_card_success (fetch : String → FetchOutcome) (a : String)
    (card : AgentCard) (h : get_agent_card fetch a = .ok card) :
    fetch (rstripSlash a ++ "/agent-card") = FetchOutcome.success card := by
  unfold get_agent_card at h
  dsimp only at h
  cases hf : fetch (rstripSlash a ++ "/agent-card") <;> rw [hf] at h <;>
    simp_all

/-- If any address in the registration loop fails discovery, the loop
raises. -/
theorem registerLoop_error_of_fail (fetch : String → FetchOutcome) :
    ∀ (addresses : List String) (acc : List (String × AgentCard)) (a : String),
      a ∈ addresses →
      (∀ card, fetch (rstripSlash a ++ "/agent-card") ≠ FetchOutcome.success card) →
      ∃ e, registerLoop fetch addresses acc = .error e := by
  intro addresses
  induction addresses with
  | nil => intro acc a ha _; cases ha
  | cons b rest ih =>
    intro acc a ha hfail
    cases hb : get_agent_card fetch b with
    | error e => exact ⟨e, by simp [registerLoop, hb]⟩
    | ok card =>
      rcases List.mem_cons.mp ha with rfl | hmem
      · exact absurd (get_agent_card_success fetch a card hb) (hfail card)
      · obtain ⟨e, he⟩ := ih (setA acc card.name card) a hmem hfail
        exact ⟨e, by simp [registerLoop, hb, he]⟩

/-- C5 counterexample: registering three agents where the second
discovery endpoint answers HTTP 500 crashes orchestrator construction —
the HTTPStatusError propagates out of __init__, so no orchestrator (and
no agent listing, not even of the successfully resolved first agent) is
produced. -/
theorem C5_http500_crashes_init :
    hostAgentInit
      (fun url =>
        if url = "http://a/agent-card" then .success ⟨"Alpha", "first", "http://a"⟩
        else if url = "http://b/agent-card" then .httpStatus 500
        else .success ⟨"Gamma", "third", "http://c"⟩)
      ["http://a", "http://b", "http://c"]
      = .error (.httpStatusError 500) := rfl

/-- C5 (amended): when the discovery endpoint of any address fails
during registration, orchestrator construction does not skip that agent
— it raises, aborting construction entirely, so no registry and no
ListAgents view exist at all. -/
theorem C5_discovery_failure_aborts_init (fetch : String → FetchOutcome)
    (addresses : List String) (a : String)
    (ha : a ∈ addresses)
    (hfail : ∀ card, fetch (rstripSlash a ++ "/agent-card")
      ≠ FetchOutcome.success card) :
    ∃ e, hostAgentInit fetch addresses = .error e := by
  obtain ⟨e, he⟩ := registerLoop_error_of_fail fetch addresses [] a ha hfail
  exact ⟨e, by simp [hostAgentInit, he]⟩

/-- Witness for C5 (amended): every discovery GET answering HTTP 500
makes construction fail. -/
theorem C5_discovery_failure_aborts_init_witness :
    ∃ e, hostAgentInit (fun _ => FetchOutcome.httpStatus 500)
      ["http://a", "http://b"] = .error e :=
  C5_discovery_failure_aborts_init (fun _ => FetchOutcome.httpStatus 500)
    ["http://a", "http://b"] "http://b" (by decide) (fun card h => nomatch h)

/-- C1: at a registered agent whose transport raises "Connection
refused", send_task catches the exception (it does not propagate) but
returns a one-element Python list containing the diagnostic — a value of
a shape other than a string, contradicting the claim and the tool's own
instruction (host_agent.py line 98) that it returns a single string. -/
theorem C1_transport_error_returns_list :
    (send_task (fun n => toString n) ["RemoteAgent"]
        (fun _ => .exn "Connection refused") "RemoteAgent" "hello"
        [("session_id", SVal.str "sess-1")] ⟨[], false, false⟩ 0).ret
      = .ok (.listRet
          ["Error communicating with RemoteAgent: Connection refused"])
    ∧ ∀ s, SendTaskRet.listRet
          ["Error communicating with RemoteAgent: Connection refused"]
        ≠ SendTaskRet.strRet s :=
  ⟨rfl, fun _ h => SendTaskRet.noConfusion h⟩

end A2A
